import Mathlib

/-!
Shallow embedding of `src/main.py` from herpichfr/splus-gaia-astrometry.

The script cross-matches a photometric survey catalogue against the Gaia
reference catalogue tile by tile, filters the matches, trims proper-motion
outliers, and writes one difference CSV per tile.

Modelling conventions:
* file-system paths are `String`s built with a model of `os.path.join`;
* catalogue rows are records of exact rationals (the float arithmetic of the
  source is idealised as exact arithmetic; a masked / NaN proper motion is
  `Option.none`);
* the nearest-neighbour match (`match_to_catalog_3d`, an external library
  call) is taken as an oracle input: the matched index list `idx` and the
  angular separations `d2d` (in arcsec) are parameters of the pipeline;
* the side effects of `SplusGaiaAst.calculate_astdiff` (file reads/writes,
  remote Vizier queries, log warnings, raised type errors) are modelled as an
  event trace computed from the configuration and the set of existing files;
* `np.cos` applied to a degree quantity converts to radians, hence the
  `Real.cos (x * Real.pi / 180)` in the RA-difference formula; `Real.cos` is
  noncomputable, so the RA differences live in a separate definition and the
  rest of the pipeline stays executable;
* `get_gaia` references the module-level name `logger` at main.py line 181,
  and no module-level `logger` is ever bound (`call_logger`, `plot_diffs`
  and `get_footprint` only bind locals or parameters), so every call to
  `get_gaia` raises `NameError` after the Vizier query (line 177) and before
  the cache write (line 196); the fetch branch is therefore modelled as the
  query followed by a `nameError` crash event, after which nothing else in
  the tile loop runs.  The cache-write path construction of lines 184-185 is
  dead code, still modelled (`gaiaWritePath`) to compare it with the path
  the differencer reads.
-/

namespace SplusGaiaAst

/-- Model of `os.path.join a b` for two components: if `b` is absolute it
wins; otherwise it is appended, inserting a separator unless `a` is empty or
already ends with one. -/
def pathJoin (a b : String) : String :=
  if b.startsWith "/" then b
  else if a = "" then b
  else if a.endsWith "/" then a ++ b
  else a ++ "/" ++ b

/-- Path to which `get_gaia` would cache the queried Gaia catalogue
(`os.path.join(workdir, "".join(['gaia_', gaia_dr, '_', tilename, '.csv']))`,
main.py lines 184-185).  This code is unreachable: the `NameError` on the
undefined `logger` at line 181 precedes it, so no cache file is ever
written; the path is modelled to compare it with `gaiaReadPath`. -/
def gaiaWritePath (workdir gaia_dr tilename : String) : String :=
  pathJoin workdir ("gaia_" ++ gaia_dr ++ "_" ++ tilename ++ ".csv")

/-- Path from which `calculate_astdiff` tries to read the cached Gaia
catalogue (`os.path.join(workdir, "".join(['gaia_', gaia_dr, '/', tile,
'.csv']))`, main.py lines 256-257). -/
def gaiaReadPath (workdir gaia_dr tile : String) : String :=
  pathJoin workdir ("gaia_" ++ gaia_dr ++ "/" ++ tile ++ ".csv")

/-- Model of `results_dir = os.path.join(workdir, 'results/')` (main.py line 237). -/
def resultsDir (workdir : String) : String :=
  pathJoin workdir "results/"

/-- Model of `path_to_results = os.path.join(results_dir, "".join([tile,
'_mar-gaiaDR3_diff.csv']))` (main.py lines 245-246).  Note that the Gaia
release identifier is not part of the name. -/
def resultPath (workdir tile : String) : String :=
  pathJoin (resultsDir workdir) (tile ++ "_mar-gaiaDR3_diff.csv")

/-- Configuration of a `SplusGaiaAst` run: the attributes of the class that
the per-tile differencer consults.  An optional survey column that was not
configured on the command line is `none` (main.py lines 107-130). -/
structure Config where
  workdir : String
  gaia_dr : String
  cat_name_preffix : String
  cat_name_suffix : String
  filetype : String
  flags_column : Option String
  clstar_column : Option String
  fwhm_column : Option String
  sn_column : Option String
  sn_limit : ℚ
deriving DecidableEq

/-- Path of the survey catalogue for a tile:
`os.path.join(workdir, "".join([cat_name_preffix, tile, cat_name_suffix]))`
(main.py lines 266-267 and 274-275). -/
def surveyCatPath (cfg : Config) (tile : String) : String :=
  pathJoin cfg.workdir (cfg.cat_name_preffix ++ tile ++ cfg.cat_name_suffix)

/-- One row of the survey (S-PLUS) catalogue: the columns the pipeline
reads.  Optional-column values are stored unconditionally; whether they are
consulted is decided by the `Config`. -/
structure SurveyRow where
  ra : ℚ
  dec : ℚ
  mag : ℚ
  flags : ℚ
  clstar : ℚ
  fwhm : ℚ
  sn : ℚ
deriving DecidableEq

/-- One row of the Gaia reference catalogue as used by the pipeline.  A
masked (invalid) proper-motion entry is `none`. -/
structure GaiaRow where
  raj2000 : ℚ
  dej2000 : ℚ
  pmRA : Option ℚ
  pmDE : Option ℚ
deriving DecidableEq

def defaultSurveyRow : SurveyRow := ⟨0, 0, 0, 0, 0, 0, 0⟩

def defaultGaiaRow : GaiaRow := ⟨0, 0, none, none⟩

/-- Condition `sample &= scat[self.flags_column] == 0`, applied only when a flags
column is configured (main.py lines 296-300). -/
def flagsCheck (cfg : Config) (r : SurveyRow) : Bool :=
  match cfg.flags_column with
  | none => true
  | some _ => decide (r.flags = 0)

/-- Condition `sample &= scat[self.clstar_column] > 0.95`, applied only when a
CLASS_STAR column is configured (main.py lines 301-309). -/
def clstarCheck (cfg : Config) (r : SurveyRow) : Bool :=
  match cfg.clstar_column with
  | none => true
  | some _ => decide ((0.95 : ℚ) < r.clstar)

/-- Condition `sample &= scat[self.fwhm_column] * 3600 < 2.5`, applied only when a
FWHM column is configured (main.py lines 310-314). -/
def fwhmCheck (cfg : Config) (r : SurveyRow) : Bool :=
  match cfg.fwhm_column with
  | none => true
  | some _ => decide (r.fwhm * 3600 < (2.5 : ℚ))

/-- Condition `sample &= scat[self.sn_column] > self.sn_limit`, applied only when a
signal-to-noise column is configured (main.py lines 315-319). -/
def snCheck (cfg : Config) (r : SurveyRow) : Bool :=
  match cfg.sn_column with
  | none => true
  | some _ => decide (cfg.sn_limit < r.sn)

/-- The quality-selection mask of main.py lines 294-319:
`sample = (mag > 14.) & (mag < 19.)` conjoined with each configured optional
condition. -/
def sampleFilter (cfg : Config) (r : SurveyRow) : Bool :=
  decide ((14 : ℚ) < r.mag) && decide (r.mag < (19 : ℚ))
    && flagsCheck cfg r && clstarCheck cfg r && fwhmCheck cfg r && snCheck cfg r

/-- Insert into a sorted list, keeping it sorted (ascending). -/
def insertSorted (x : ℚ) : List ℚ → List ℚ
  | [] => [x]
  | y :: ys => if x ≤ y then x :: y :: ys else y :: insertSorted x ys

/-- Insertion sort, the model of the ascending sort `np.percentile` performs
internally. -/
def sortQ : List ℚ → List ℚ
  | [] => []
  | x :: xs => insertSorted x (sortQ xs)

/-- Floor of a nonnegative rational as a natural number (`Int.ediv` on a
nonnegative numerator agrees with the floor). -/
def ratFloorNat (q : ℚ) : ℕ := (q.num / (q.den : ℤ)).toNat

/-- Model of `np.percentile(xs, 95)` with the default linear interpolation:
sort ascending, take `pos = 0.95 * (n - 1)`, and interpolate between the
neighbouring order statistics. -/
def percentile95 (xs : List ℚ) : ℚ :=
  let s := sortQ xs
  let n := s.length
  let pos : ℚ := 95 * ((n : ℚ) - 1) / 100
  let i : ℕ := ratFloorNat pos
  let lo := s.getD i 0
  let hi := s.getD (i + 1) lo
  lo + (pos - (i : ℚ)) * (hi - lo)

/-- Value `abs(finalgaia['pmRA']) + abs(finalgaia['pmDE'])` for one row; the mask
propagates (main.py line 324). -/
def abspmOf (g : GaiaRow) : Option ℚ :=
  match g.pmRA, g.pmDE with
  | some a, some b => some (|a| + |b|)
  | _, _ => none

/-- Model of `lmt = np.percentile(abspm[~mx.mask], 95)` (main.py lines 326-327): the
95th percentile over the valid (unmasked) summed proper motions only. -/
def trimLimit (aps : List (Option ℚ)) : ℚ :=
  percentile95 (aps.filterMap id)

/-- Model of `mask = (abspm < lmt) & ~mx.mask` (main.py line 328): an entry is kept
iff it is valid and strictly below the 95th percentile of the valid
entries. -/
def trimMask (aps : List (Option ℚ)) : List Bool :=
  aps.map (fun o =>
    match o with
    | some v => decide (v < trimLimit aps)
    | none => false)

/-- Keep the elements of `xs` whose positional mask entry is `true`
(numpy boolean-array indexing). -/
def applyMask {α : Type} (xs : List α) (m : List Bool) : List α :=
  (xs.zip m).filterMap (fun p => if p.2 then some p.1 else none)

/-- Model of `separation & sample` (main.py lines 292-321): the positional mask
combining the strict 5 arcsec separation threshold `d2d < 5.0 * u.arcsec`
with the quality selection. -/
def combinedMask (cfg : Config) (scat : List SurveyRow) (d2d : List ℚ) : List Bool :=
  List.zipWith (fun s q => decide (q < (5 : ℚ)) && sampleFilter cfg s) scat d2d

/-- Model of `finalscat = scat[separation & sample]` (main.py line 321). -/
def finalscat (cfg : Config) (scat : List SurveyRow) (d2d : List ℚ) : List SurveyRow :=
  applyMask scat (combinedMask cfg scat d2d)

/-- Model of `gaia_data[idx]`: the reference catalogue reindexed by the
nearest-neighbour match indices. -/
def gaiaByIdx (gaia : List GaiaRow) (idx : List ℕ) : List GaiaRow :=
  idx.map (fun i => gaia.getD i defaultGaiaRow)

/-- Model of `finalgaia = gaia_data[idx][separation & sample]` (main.py line 322). -/
def finalgaia (cfg : Config) (scat : List SurveyRow) (gaia : List GaiaRow)
    (idx : List ℕ) (d2d : List ℚ) : List GaiaRow :=
  applyMask (gaiaByIdx gaia idx) (combinedMask cfg scat d2d)

/-- The summed absolute proper motion per matched pair (main.py line 324). -/
def abspmList (cfg : Config) (scat : List SurveyRow) (gaia : List GaiaRow)
    (idx : List ℕ) (d2d : List ℚ) : List (Option ℚ) :=
  (finalgaia cfg scat gaia idx d2d).map abspmOf

/-- The matched pairs surviving all filters and the outlier trim: the rows
indexed by `mask` in main.py lines 328-342. -/
def survivors (cfg : Config) (scat : List SurveyRow) (gaia : List GaiaRow)
    (idx : List ℕ) (d2d : List ℚ) : List (SurveyRow × GaiaRow) :=
  applyMask ((finalscat cfg scat d2d).zip (finalgaia cfg scat gaia idx d2d))
    (trimMask (abspmList cfg scat gaia idx d2d))

/-- One row of the per-tile result table (main.py lines 336-343) minus the
`radiff` column, which involves a cosine and is kept in the separate
noncomputable `radiffs`. -/
structure DiffRecord where
  ra : ℚ
  dec : ℚ
  raj2000 : ℚ
  dej2000 : ℚ
  dediff : ℚ
  abspm : ℚ
deriving DecidableEq

def defaultDiffRecord : DiffRecord := ⟨0, 0, 0, 0, 0, 0⟩

/-- Build one result row from a surviving pair:
`dediff = 3600. * (finalscat[dec][mask] - finalgaia['DEJ2000'][mask])`
(main.py lines 329-331, 336-342). -/
def mkDiffRecord (p : SurveyRow × GaiaRow) : DiffRecord :=
  { ra := p.1.ra
    dec := p.1.dec
    raj2000 := p.2.raj2000
    dej2000 := p.2.dej2000
    dediff := 3600 * (p.1.dec - p.2.dej2000)
    abspm := (abspmOf p.2).getD 0 }

/-- The rows written to the per-tile result CSV. -/
def resultRows (cfg : Config) (scat : List SurveyRow) (gaia : List GaiaRow)
    (idx : List ℕ) (d2d : List ℚ) : List DiffRecord :=
  (survivors cfg scat gaia idx d2d).map mkDiffRecord

/-- The `radiff` column:
`radiff = 3600 * (finalscat[ra][mask] - finalgaia['RAJ2000'][mask]) *
np.cos(np.array(finalgaia['DEJ2000'])[mask] * u.deg)` (main.py lines
332-334).  `np.cos` of a degree quantity converts to radians first. -/
noncomputable def radiffs (cfg : Config) (scat : List SurveyRow) (gaia : List GaiaRow)
    (idx : List ℕ) (d2d : List ℚ) : List ℝ :=
  (survivors cfg scat gaia idx d2d).map
    (fun p => 3600 * ((p.1.ra : ℝ) - (p.2.raj2000 : ℝ))
      * Real.cos ((p.2.dej2000 : ℝ) * Real.pi / 180))

/-! ### Side-effect trace of the per-tile differencer -/

/-- An observable side effect of one iteration of the tile loop in
`calculate_astdiff` (main.py lines 241-346). -/
inductive Event where
  | info (msg : String)
  | warn (msg : String)
  | readFile (path : String)
  | queryRemote (tile : String)
  | writeFile (path : String)
  | typeError (msg : String)
  | nameError (name : String)
deriving DecidableEq

/-- An event that constitutes (re)computation work for a tile: reading a
catalogue, querying the remote service, or writing a file. -/
def isRecompute : Event → Bool
  | Event.readFile _ => true
  | Event.queryRemote _ => true
  | Event.writeFile _ => true
  | _ => false

def isTypeError : Event → Bool
  | Event.typeError _ => true
  | _ => false

/-- The paths written by a trace. -/
def writtenPaths (tr : List Event) : List String :=
  tr.filterMap (fun e =>
    match e with
    | Event.writeFile p => some p
    | _ => none)

/-- Model of `os.path.isfile(path_to_results)` (main.py line 247): the skip-if-exists
check, keyed by workdir and tile name only. -/
def skipDecision (cfg : Config) (fs : List String) (tile : String) : Bool :=
  decide (resultPath cfg.workdir tile ∈ fs)

def warnFlagsMsg : String :=
  "FLAGS column not available. Skipping using flags to object selection"

def warnClstarMsg : String :=
  "CLASS_STAR column not available. Skipping using CLASS_STAR to object selection"

def warnClstarFoundMsg : String :=
  "Column for CLASS_STAR not found. Ignoring"

def warnFwhmMsg : String :=
  "FWHM column not available. Skipping using FWHM to object selection"

def warnSnMsg : String :=
  "SN column not available. Skipping using SN to object selection"

def errUnsupportedMsg : String :=
  "Filetype for input catalogue not supported"

/-- The warnings logged by the quality-selection block (main.py lines
294-319).  An unconfigured column is reported as unavailable and skipped;
note the configured CLASS_STAR branch logs its message unconditionally
because the source uses `try/finally`. -/
def sampleWarnEvents (cfg : Config) : List Event :=
  (match cfg.flags_column with
   | none => [Event.warn warnFlagsMsg]
   | some _ => [])
  ++ (match cfg.clstar_column with
      | none => [Event.warn warnClstarMsg]
      | some _ => [Event.warn warnClstarFoundMsg])
  ++ (match cfg.fwhm_column with
      | none => [Event.warn warnFwhmMsg]
      | some _ => [])
  ++ (match cfg.sn_column with
      | none => [Event.warn warnSnMsg]
      | some _ => [])

/-- Model of `get_gaia` (main.py lines 133-198): the Vizier query at line
177 runs, then line 181 references the module-level name `logger`, which is
never bound anywhere in the module, so the call raises `NameError` there;
the cache write at line 196 is never reached and `get_gaia` never returns
normally. -/
def getGaiaEvents (_cfg : Config) (tile : String) : List Event :=
  [Event.queryRemote tile, Event.nameError "logger"]

/-- The steps of the loop body that follow a successful reference-catalogue
load: survey catalogue load dispatched on `filetype` (main.py lines 264-284;
an unsupported value raises before the survey file is touched),
quality-selection warnings (lines 294-319), result write (line 346). -/
def surveyLoadEvents (cfg : Config) (tile : String) : List Event :=
  if cfg.filetype = ".fits" then
    [Event.readFile (surveyCatPath cfg tile)] ++ sampleWarnEvents cfg
      ++ [Event.writeFile (resultPath cfg.workdir tile)]
  else if cfg.filetype = ".csv" then
    [Event.readFile (surveyCatPath cfg tile)] ++ sampleWarnEvents cfg
      ++ [Event.writeFile (resultPath cfg.workdir tile)]
  else
    [Event.typeError errUnsupportedMsg]

/-- The side effects of one iteration of the tile loop of
`calculate_astdiff` (main.py lines 241-346), given the set `fs` of files
that currently exist.  Order follows the source: filler check, result
skip-if-exists check, then either the Gaia cache read followed by the rest
of the pipeline, or the remote fetch — which dies inside `get_gaia` with
the `NameError` on the unbound `logger` (line 181), so on that branch
nothing after the fetch runs. -/
def processTileEvents (cfg : Config) (fs : List String) (tile : String) : List Event :=
  if tile = "fakename" then
    [Event.info "This is a filler name"]
  else if skipDecision cfg fs tile then
    [Event.info ("Catalogue for tile " ++ tile ++ " already exists. Skipping")]
  else if gaiaReadPath cfg.workdir cfg.gaia_dr tile ∈ fs then
    [Event.info "Reading gaia cat from database",
     Event.readFile (gaiaReadPath cfg.workdir cfg.gaia_dr tile)]
      ++ surveyLoadEvents cfg tile
  else
    getGaiaEvents cfg tile

/-! ### The `__main__` block -/

/-- An observable event of the `__main__` block (main.py lines 548-630). -/
inductive MainEvent where
  | setupDone
  | exited
  | spawned (chunk : List String)
  | plotted
deriving DecidableEq

def isSpawn : MainEvent → Bool
  | MainEvent.spawned _ => true
  | _ => false

/-- Constant `num_procs = 8` (main.py line 571). -/
def num_procs : ℕ := 8

/-- Padding of the tile list with `'fakename'` filler entries so that it
splits evenly into `n` chunks (main.py lines 574-583); note the count of
distinct names (`np.unique(b).size`) drives the padding. -/
def padFields (b : List String) (n : ℕ) : List String :=
  let numFields := b.dedup.length
  if numFields % n > 0 then
    b ++ List.replicate ((numFields / n + 1) * n - numFields) "fakename"
  else b

/-- Model of `np.array(b).reshape((rows, cols))` as a list of `rows` chunks of length
`cols` (main.py lines 584-585). -/
def reshapeRows {α : Type} (l : List α) (rows cols : ℕ) : List (List α) :=
  (List.range rows).map (fun i => (l.drop (i * cols)).take cols)

/-- The multiprocessing fan-out block (main.py lines 573-610): only when
`num_procs == 1` does it pad the tile list, reshape it into chunks and spawn
one process per chunk. -/
def fanoutEvents (fields : List String) : List MainEvent :=
  if num_procs = 1 then
    let b := padFields fields num_procs
    (reshapeRows b num_procs (b.length / num_procs)).map MainEvent.spawned
  else []

/-- The statements of the `__main__` block, in source order: the setup
(logger, argument parsing, tile list and footprint loading, lines 549-567),
the unconditional `sys.exit()` (line 569), the gated multiprocessing
fan-out (lines 571-610), and the stacking/plotting block (lines 612-630). -/
inductive MainStep where
  | setup
  | sysExit
  | fanout (fields : List String)
  | plotBlock

def mainProgram (fields : List String) : List MainStep :=
  [MainStep.setup, MainStep.sysExit, MainStep.fanout fields, MainStep.plotBlock]

def stepEvents : MainStep → List MainEvent
  | MainStep.setup => [MainEvent.setupDone]
  | MainStep.sysExit => [MainEvent.exited]
  | MainStep.fanout fields => fanoutEvents fields
  | MainStep.plotBlock => [MainEvent.plotted]

/-- Run a statement list; `sys.exit()` terminates the process, so nothing
after a step that emits `exited` is executed. -/
def runMain : List MainStep → List MainEvent
  | [] => []
  | s :: rest =>
    let es := stepEvents s
    if MainEvent.exited ∈ es then es else es ++ runMain rest

/-! ### Helper lemmas -/

/-- The function `getD` commutes with `map` at indices inside the list. -/
theorem getD_map_of_lt {α β : Type} (f : α → β) (d' : α) (d : β) (l : List α) :
    ∀ i : ℕ, i < l.length → (l.map f).getD i d = f (l.getD i d') := by
  induction l with
  | nil => intro i h; simp at h
  | cons x xs ih =>
    intro i h
    cases i with
    | zero => rfl
    | succ n =>
      have hn : n < xs.length := by simpa using h
      simpa using ih n hn

/-! ### Concrete inputs used by witnesses and counterexamples -/

set_option maxRecDepth 10000

/-- A configuration with no optional quality column configured. -/
def cfgNoOpt : Config :=
  { workdir := "wd", gaia_dr := "355", cat_name_preffix := "", cat_name_suffix := ".fits",
    filetype := ".fits", flags_column := none, clstar_column := none,
    fwhm_column := none, sn_column := none, sn_limit := 10 }

/-- A survey row with magnitude 18.5 and flags 1 (spec example for the
quality filter). -/
def rowC3 : SurveyRow :=
  { ra := 0, dec := 0, mag := 18.5, flags := 1, clstar := 0, fwhm := 0, sn := 0 }

/-- A configuration with every optional quality column configured. -/
def cfgAllOpt : Config :=
  { workdir := "wd", gaia_dr := "355", cat_name_preffix := "", cat_name_suffix := ".fits",
    filetype := ".fits", flags_column := some "FLAGS", clstar_column := some "CLASS_STAR",
    fwhm_column := some "FWHM", sn_column := some "s2n", sn_limit := 10 }

/-- A survey row passing every configured quality condition. -/
def rowAllOk : SurveyRow :=
  { ra := 0, dec := 0, mag := 16, flags := 0, clstar := 0.96, fwhm := 0.0005, sn := 20 }

/-- The proper-motion sums 1, 2, ..., 100 of the spec example, all valid. -/
def aps100 : List (Option ℚ) := (List.range 100).map (fun n => some ((n : ℚ) + 1))

/-! ### C3: quality-selection filter -/

/-- C3: a survey row passes the quality selection iff its magnitude is
strictly between 14 and 19 and each configured optional condition holds
(flags equal to 0, class-star above 0.95, FWHM in arcsec below 2.5,
signal-to-noise above the configured limit); an unconfigured optional filter
imposes no constraint, and in particular with no optional column configured
a row with magnitude 18.5 and flags 1 in the data passes. -/
theorem c3_quality_filter :
    (∀ (cfg : Config) (r : SurveyRow),
      sampleFilter cfg r = true ↔
        ((14 : ℚ) < r.mag ∧ r.mag < 19
          ∧ (cfg.flags_column ≠ none → r.flags = 0)
          ∧ (cfg.clstar_column ≠ none → (0.95 : ℚ) < r.clstar)
          ∧ (cfg.fwhm_column ≠ none → r.fwhm * 3600 < (2.5 : ℚ))
          ∧ (cfg.sn_column ≠ none → cfg.sn_limit < r.sn)))
    ∧ sampleFilter cfgNoOpt rowC3 = true := by
  constructor
  · intro cfg r
    rcases cfg with ⟨w, dr, pre, suf, ft, fl, cl, fw, sn, lim⟩
    cases fl <;> cases cl <;> cases fw <;> cases sn <;>
      simp [sampleFilter, flagsCheck, clstarCheck, fwhmCheck, snCheck, and_assoc]
  · with_unfolding_all rfl

/-- Witness for C3: a row meeting every configured condition passes the
filter when all optional columns are configured. -/
theorem c3_quality_filter_witness : sampleFilter cfgAllOpt rowAllOk = true :=
  (c3_quality_filter.1 cfgAllOpt rowAllOk).mpr (by with_unfolding_all decide)

/-! ### C4: proper-motion outlier trim -/

/-- C4: the outlier trim keeps an entry iff its summed absolute proper
motion is valid (not masked) and strictly below the 95th percentile of the
valid values; on the sums 1..100 the cutoff is 95.05 and exactly the 95
smallest values are kept. -/
theorem c4_outlier_trim :
    (∀ (aps : List (Option ℚ)) (i : ℕ),
      ((trimMask aps).getD i false = true ↔
        aps.getD i none ≠ none ∧ (aps.getD i none).getD 0 < trimLimit aps))
    ∧ trimLimit aps100 = 1901 / 20
    ∧ trimMask aps100 = List.replicate 95 true ++ List.replicate 5 false := by
  refine ⟨?_, by with_unfolding_all rfl, by with_unfolding_all rfl⟩
  intro aps i
  by_cases h : i < aps.length
  · have hmap : (trimMask aps).getD i false
        = (fun o => match o with
            | some v => decide (v < trimLimit aps)
            | none => false) (aps.getD i none) :=
      getD_map_of_lt _ none false aps i h
    rw [hmap]
    cases haps : aps.getD i none with
    | none => simp
    | some v => simp
  · have h1 : (trimMask aps).getD i false = false :=
      List.getD_eq_default _ _ (by simpa [trimMask] using Nat.le_of_not_lt h)
    have h2 : aps.getD i none = none :=
      List.getD_eq_default _ _ (Nat.le_of_not_lt h)
    rw [h1, h2]
    simp

/-- Witness for C4: the first of the sums 1..100 is valid and below the
cutoff, so it is kept. -/
theorem c4_outlier_trim_witness : (trimMask aps100).getD 0 false = true :=
  (c4_outlier_trim.1 aps100 0).mpr (by with_unfolding_all decide)

/-! ### C1: RA/Dec difference formulas -/

/-- Survey rows of the spec example: the pair (10.0, 20.0) plus a second
passing row that keeps the percentile cutoff above the first pair. -/
def scatC1 : List SurveyRow :=
  [{ ra := 10, dec := 20, mag := 16, flags := 0, clstar := 0, fwhm := 0, sn := 0 },
   { ra := 30, dec := -5, mag := 17, flags := 0, clstar := 0, fwhm := 0, sn := 0 }]

/-- Reference rows of the spec example: the first matches (10.001, 20.0005). -/
def gaiaC1 : List GaiaRow :=
  [{ raj2000 := 10.001, dej2000 := 20.0005, pmRA := some 1, pmDE := some 1 },
   { raj2000 := 30.0001, dej2000 := -5.0001, pmRA := some 5, pmDE := some 5 }]

/-- C1: every surviving pair's result row satisfies
`dediff = 3600 * (survey Dec - reference Dec)` and its `radiff` equals
`3600 * (survey RA - reference RA) * cos(reference Dec in radians)`; on the
spec example the Dec difference is exactly -1.8 arcsec. -/
theorem c1_difference_formulas :
    (∀ (cfg : Config) (scat : List SurveyRow) (gaia : List GaiaRow)
        (idx : List ℕ) (d2d : List ℚ) (i : ℕ),
      i < (resultRows cfg scat gaia idx d2d).length →
        (((resultRows cfg scat gaia idx d2d).getD i defaultDiffRecord).dediff
            = 3600 * (((resultRows cfg scat gaia idx d2d).getD i defaultDiffRecord).dec
              - ((resultRows cfg scat gaia idx d2d).getD i defaultDiffRecord).dej2000))
        ∧ ((radiffs cfg scat gaia idx d2d).getD i 0
            = 3600 * ((((resultRows cfg scat gaia idx d2d).getD i defaultDiffRecord).ra : ℝ)
                - (((resultRows cfg scat gaia idx d2d).getD i defaultDiffRecord).raj2000 : ℝ))
              * Real.cos ((((resultRows cfg scat gaia idx d2d).getD i
                  defaultDiffRecord).dej2000 : ℝ) * Real.pi / 180)))
    ∧ (resultRows cfgNoOpt scatC1 gaiaC1 [0, 1] [3, 3]).map (fun r => r.dediff)
        = [-(9 / 5)] := by
  constructor
  · intro cfg scat gaia idx d2d i h
    have hs : i < (survivors cfg scat gaia idx d2d).length := by
      simpa [resultRows] using h
    have h1 : (resultRows cfg scat gaia idx d2d).getD i defaultDiffRecord
        = mkDiffRecord ((survivors cfg scat gaia idx d2d).getD i
            (defaultSurveyRow, defaultGaiaRow)) :=
      getD_map_of_lt _ _ _ _ i hs
    have h2 : (radiffs cfg scat gaia idx d2d).getD i 0
        = (fun p : SurveyRow × GaiaRow =>
            3600 * ((p.1.ra : ℝ) - (p.2.raj2000 : ℝ))
              * Real.cos ((p.2.dej2000 : ℝ) * Real.pi / 180))
          ((survivors cfg scat gaia idx d2d).getD i (defaultSurveyRow, defaultGaiaRow)) :=
      getD_map_of_lt _ _ _ _ i hs
    rw [h1, h2]
    exact ⟨by simp [mkDiffRecord], by simp [mkDiffRecord]⟩
  · with_unfolding_all rfl

/-- Witness for C1: the spec example has a surviving pair, and its result
row satisfies the Dec-difference formula. -/
theorem c1_difference_formulas_witness :
    0 < (resultRows cfgNoOpt scatC1 gaiaC1 [0, 1] [3, 3]).length
    ∧ ((resultRows cfgNoOpt scatC1 gaiaC1 [0, 1] [3, 3]).getD 0 defaultDiffRecord).dediff
        = 3600 * (((resultRows cfgNoOpt scatC1 gaiaC1 [0, 1] [3, 3]).getD 0
              defaultDiffRecord).dec
          - ((resultRows cfgNoOpt scatC1 gaiaC1 [0, 1] [3, 3]).getD 0
              defaultDiffRecord).dej2000) :=
  ⟨by with_unfolding_all decide,
   (c1_difference_formulas.1 cfgNoOpt scatC1 gaiaC1 [0, 1] [3, 3] 0
      (by with_unfolding_all decide)).1⟩

/-! ### C7: strict 5 arcsec separation threshold -/

/-- C7: a survey entry whose separation to its matched reference entry is at
least 5 arcsec is excluded from the matched set regardless of the quality
filters, and every entry the combined mask keeps has separation strictly
below 5 arcsec. -/
theorem c7_separation_threshold :
    ∀ (cfg : Config) (scat : List SurveyRow) (d2d : List ℚ) (i : ℕ),
      ((5 : ℚ) ≤ d2d.getD i 0 → (combinedMask cfg scat d2d).getD i false = false)
      ∧ ((combinedMask cfg scat d2d).getD i false = true → d2d.getD i 0 < 5) := by
  intro cfg scat
  induction scat with
  | nil =>
    intro d2d i
    constructor
    · intro _
      simp [combinedMask]
    · intro h
      simp [combinedMask] at h
  | cons s ss ih =>
    intro d2d i
    cases d2d with
    | nil =>
      constructor
      · intro _
        simp [combinedMask]
      · intro h
        simp [combinedMask] at h
    | cons q qs =>
      cases i with
      | zero =>
        constructor
        · intro h5
          have hq : decide (q < (5 : ℚ)) = false := by
            simpa using not_lt.mpr h5
          simp [combinedMask, hq]
        · intro h
          simp [combinedMask] at h
          exact h.1
      | succ n =>
        have hiq := ih qs n
        constructor
        · intro h5
          simpa [combinedMask] using hiq.1 (by simpa using h5)
        · intro h
          simpa using hiq.2 (by simpa [combinedMask] using h)

/-- Witness for C7: a separation of 6 arcsec excludes the pair even though
the survey row passes every quality filter. -/
theorem c7_separation_threshold_witness :
    (5 : ℚ) ≤ ([(6 : ℚ)]).getD 0 0
    ∧ sampleFilter cfgAllOpt rowAllOk = true
    ∧ (combinedMask cfgAllOpt [rowAllOk] [(6 : ℚ)]).getD 0 false = false :=
  ⟨by with_unfolding_all decide, by with_unfolding_all rfl,
   (c7_separation_threshold cfgAllOpt [rowAllOk] [(6 : ℚ)] 0).1
     (by with_unfolding_all decide)⟩

/-! ### C2: skip-if-exists -/

/-- When the per-tile result file already exists, the loop body only logs
and performs no read, write or remote query. -/
theorem skip_no_recompute (cfg : Config) (fs : List String) (tile : String)
    (h : resultPath cfg.workdir tile ∈ fs) :
    (processTileEvents cfg fs tile).any isRecompute = false := by
  by_cases hf : tile = "fakename"
  · simp [processTileEvents, hf, isRecompute]
  · have hs : skipDecision cfg fs tile = true := by simp [skipDecision, h]
    simp [processTileEvents, hf, hs, isRecompute]

/-- C2: for a tile whose per-tile output CSV already exists, the differencer
performs no work: nothing is read, nothing is written (so the existing file
is untouched), and no remote catalogue query is issued. -/
theorem c2_skip_if_exists :
    ∀ (cfg : Config) (fs : List String) (tile : String),
      resultPath cfg.workdir tile ∈ fs →
      (processTileEvents cfg fs tile).any isRecompute = false := by
  intro cfg fs tile h
  exact skip_no_recompute cfg fs tile h

/-- Witness for C2: with the result file for tile T present, the trace for T
has no read, write or query event. -/
theorem c2_skip_if_exists_witness :
    resultPath cfgNoOpt.workdir "T" ∈ ["wd/results/T_mar-gaiaDR3_diff.csv"]
    ∧ (processTileEvents cfgNoOpt ["wd/results/T_mar-gaiaDR3_diff.csv"] "T").any
        isRecompute = false :=
  ⟨by with_unfolding_all decide,
   c2_skip_if_exists cfgNoOpt ["wd/results/T_mar-gaiaDR3_diff.csv"] "T"
     (by with_unfolding_all decide)⟩

/-! ### C5: cache round-trip (broken in the code) -/

/-- C5 (code bug): the round-trip fails twice over.  The fetch crashes with
`NameError` on the unbound `logger` right after the Vizier query, so it
writes nothing at all (its trace has no write event); and even the cache
path the dead write code would use (`wd/gaia_355_T.csv`, underscore join)
differs from the path `calculate_astdiff` checks and reads
(`wd/gaia_355/T.csv`), so a file present at the would-be write path still
leaves the differencer querying the remote service. -/
theorem c5_cache_path_mismatch :
    gaiaWritePath "wd" "355" "T" = "wd/gaia_355_T.csv"
    ∧ gaiaReadPath "wd" "355" "T" = "wd/gaia_355/T.csv"
    ∧ gaiaWritePath "wd" "355" "T" ≠ gaiaReadPath "wd" "355" "T"
    ∧ getGaiaEvents cfgNoOpt "T" = [Event.queryRemote "T", Event.nameError "logger"]
    ∧ writtenPaths (getGaiaEvents cfgNoOpt "T") = []
    ∧ Event.queryRemote "T" ∈ processTileEvents cfgNoOpt ["wd/gaia_355_T.csv"] "T" := by
  with_unfolding_all decide

/-! ### C6: unsupported filetype -/

/-- Configuration with the unsupported filetype `.txt`. -/
def cfgC6 : Config :=
  { workdir := "wd", gaia_dr := "355", cat_name_preffix := "", cat_name_suffix := ".fits",
    filetype := ".txt", flags_column := none, clstar_column := none,
    fwhm_column := none, sn_column := none, sn_limit := 10 }

/-- File system for the C6 counterexample: the Gaia cache for tile T exists. -/
def fsC6 : List String := ["wd/gaia_355/T.csv"]

/-- Counterexample to C6 as stated: with filetype `.txt` the trace for tile
T contains a file read (the Gaia cache) strictly before the type error is
raised, so a catalogue file is read before the error. -/
theorem c6_counterexample :
    processTileEvents cfgC6 fsC6 "T" =
      [Event.info "Reading gaia cat from database",
       Event.readFile (gaiaReadPath "wd" "355" "T"),
       Event.typeError errUnsupportedMsg]
    ∧ Event.readFile (gaiaReadPath "wd" "355" "T")
        ∈ (processTileEvents cfgC6 fsC6 "T").takeWhile (fun e => !isTypeError e) := by
  with_unfolding_all decide

/-- C6 (amended): for a filetype other than `.fits` and `.csv`, when
processing a tile reaches the filetype dispatch (that is, the Gaia cache for
the tile exists and is read — otherwise the run already dies inside
`get_gaia`), the type error is raised before the survey catalogue is opened
and before any result is written; the reference-catalogue cache read does
precede the error: the trace is exactly the cache read followed by the type
error. -/
theorem c6_amended_type_error :
    ∀ (cfg : Config) (fs : List String) (tile : String),
      tile ≠ "fakename" → skipDecision cfg fs tile = false →
      gaiaReadPath cfg.workdir cfg.gaia_dr tile ∈ fs →
      cfg.filetype ≠ ".fits" → cfg.filetype ≠ ".csv" →
      processTileEvents cfg fs tile =
        [Event.info "Reading gaia cat from database",
         Event.readFile (gaiaReadPath cfg.workdir cfg.gaia_dr tile),
         Event.typeError errUnsupportedMsg] := by
  intro cfg fs tile hf hsk hg hfits hcsv
  simp [processTileEvents, surveyLoadEvents, hf, hsk, hg, hfits, hcsv]

/-- Witness for C6 (amended): the `.txt` configuration with the cache
present yields exactly the cache read followed by the type error. -/
theorem c6_amended_type_error_witness :
    cfgC6.filetype ≠ ".fits"
    ∧ processTileEvents cfgC6 fsC6 "T" =
        [Event.info "Reading gaia cat from database",
         Event.readFile (gaiaReadPath cfgC6.workdir cfgC6.gaia_dr "T"),
         Event.typeError errUnsupportedMsg] :=
  ⟨by with_unfolding_all decide,
   c6_amended_type_error cfgC6 fsC6 "T" (by with_unfolding_all decide)
     (by with_unfolding_all rfl) (by with_unfolding_all decide)
     (by with_unfolding_all decide) (by with_unfolding_all decide)⟩

/-! ### C8: missing optional quality columns -/

/-- The four optional quality-filter columns. -/
inductive QCol where
  | flags
  | clstar
  | fwhm
  | sn
deriving DecidableEq

/-- The configured column name, if any, for each optional filter. -/
def colConfig (cfg : Config) : QCol → Option String
  | QCol.flags => cfg.flags_column
  | QCol.clstar => cfg.clstar_column
  | QCol.fwhm => cfg.fwhm_column
  | QCol.sn => cfg.sn_column

/-- The warning logged when the column is not configured. -/
def colWarnMsg : QCol → String
  | QCol.flags => warnFlagsMsg
  | QCol.clstar => warnClstarMsg
  | QCol.fwhm => warnFwhmMsg
  | QCol.sn => warnSnMsg

/-- The per-column filter stage. -/
def colCheck (cfg : Config) (r : SurveyRow) : QCol → Bool
  | QCol.flags => flagsCheck cfg r
  | QCol.clstar => clstarCheck cfg r
  | QCol.fwhm => fwhmCheck cfg r
  | QCol.sn => snCheck cfg r

/-- The shape of the loop-body trace on the `.fits` path with the Gaia
cache present (the only way the loop body reaches the quality filters, since
the fetch branch dies inside `get_gaia`). -/
theorem processTile_fits_trace (cfg : Config) (fs : List String) (tile : String)
    (hf : tile ≠ "fakename") (hsk : skipDecision cfg fs tile = false)
    (hg : gaiaReadPath cfg.workdir cfg.gaia_dr tile ∈ fs)
    (hft : cfg.filetype = ".fits") :
    processTileEvents cfg fs tile =
      [Event.info "Reading gaia cat from database",
       Event.readFile (gaiaReadPath cfg.workdir cfg.gaia_dr tile)]
      ++ [Event.readFile (surveyCatPath cfg tile)] ++ sampleWarnEvents cfg
      ++ [Event.writeFile (resultPath cfg.workdir tile)] := by
  simp [processTileEvents, surveyLoadEvents, hf, hsk, hg, hft]

/-- An unconfigured column contributes its warning to the filter block. -/
theorem warn_mem_sampleWarnEvents (cfg : Config) (c : QCol)
    (h : colConfig cfg c = none) :
    Event.warn (colWarnMsg c) ∈ sampleWarnEvents cfg := by
  cases c <;> simp [colConfig] at h <;>
    simp [sampleWarnEvents, colWarnMsg, h]

/-- The filter block only warns; it never raises. -/
theorem sampleWarn_no_typeError (cfg : Config) :
    (sampleWarnEvents cfg).any isTypeError = false := by
  rcases cfg with ⟨w, dr, pre, suf, ft, fl, cl, fw, sn, lim⟩
  cases fl <;> cases cl <;> cases fw <;> cases sn <;>
    simp [sampleWarnEvents, isTypeError]

/-- C8: for every optional quality-filter column that is not configured, on
every run of the loop body that reaches the quality filters (the tile's
Gaia cache exists — the fetch branch never gets there) processing is
non-fatal — the warning is logged, that filter stage imposes no constraint
on any row, no type error occurs, and the tile still reaches its result
write. -/
theorem c8_missing_column_nonfatal :
    ∀ (cfg : Config) (fs : List String) (tile : String) (r : SurveyRow) (c : QCol),
      tile ≠ "fakename" → skipDecision cfg fs tile = false →
      gaiaReadPath cfg.workdir cfg.gaia_dr tile ∈ fs →
      cfg.filetype = ".fits" → colConfig cfg c = none →
      Event.warn (colWarnMsg c) ∈ processTileEvents cfg fs tile
      ∧ colCheck cfg r c = true
      ∧ (processTileEvents cfg fs tile).any isTypeError = false
      ∧ Event.writeFile (resultPath cfg.workdir tile) ∈ processTileEvents cfg fs tile := by
  intro cfg fs tile r c hf hsk hg hft hc
  rw [processTile_fits_trace cfg fs tile hf hsk hg hft]
  refine ⟨?_, ?_, ?_, ?_⟩
  · simp [List.mem_append, warn_mem_sampleWarnEvents cfg c hc]
  · cases c <;> simp [colConfig] at hc <;>
      simp [colCheck, flagsCheck, clstarCheck, fwhmCheck, snCheck, hc]
  · simp [isTypeError, sampleWarn_no_typeError]
  · simp [List.mem_append]

/-- File system for the C8 witness: the Gaia cache for tile T exists, the
result does not. -/
def fsC8 : List String := ["wd/gaia_355/T.csv"]

/-- Witness for C8: with no optional column configured and the Gaia cache
present, tile T warns about the flags column, the flags stage passes a row
with flags 1, no type error occurs and the result is written. -/
theorem c8_missing_column_nonfatal_witness :
    colConfig cfgNoOpt QCol.flags = none
    ∧ (Event.warn (colWarnMsg QCol.flags) ∈ processTileEvents cfgNoOpt fsC8 "T"
       ∧ colCheck cfgNoOpt rowC3 QCol.flags = true
       ∧ (processTileEvents cfgNoOpt fsC8 "T").any isTypeError = false
       ∧ Event.writeFile (resultPath cfgNoOpt.workdir "T")
           ∈ processTileEvents cfgNoOpt fsC8 "T") :=
  ⟨rfl,
   c8_missing_column_nonfatal cfgNoOpt fsC8 "T" rowC3 QCol.flags
     (by with_unfolding_all decide) (by with_unfolding_all rfl)
     (by with_unfolding_all decide) rfl rfl⟩

/-! ### C9: the multiprocessing fan-out is dead code -/

/-- C9: in every run of the `__main__` block no worker process is spawned:
the unconditional `sys.exit()` stops execution before the fan-out block, and
the fan-out block itself is gated on `num_procs == 1` while `num_procs` is
fixed to 8, so it would emit nothing even if reached. -/
theorem c9_fanout_never_runs :
    ∀ (fields fields2 : List String),
      (runMain (mainProgram fields)).any isSpawn = false
      ∧ num_procs ≠ 1
      ∧ fanoutEvents fields2 = [] := by
  intro fields fields2
  refine ⟨?_, by decide, rfl⟩
  have h : runMain (mainProgram fields) = [MainEvent.setupDone, MainEvent.exited] := by
    simp [runMain, mainProgram, stepEvents]
  rw [h]
  rfl

/-- Witness for C9 at a concrete tile list. -/
theorem c9_fanout_never_runs_witness :
    (runMain (mainProgram ["STRIPE82-0001", "STRIPE82-0002"])).any isSpawn = false
    ∧ num_procs ≠ 1
    ∧ fanoutEvents ["STRIPE82-0001", "STRIPE82-0002"] = [] :=
  c9_fanout_never_runs ["STRIPE82-0001", "STRIPE82-0002"]
    ["STRIPE82-0001", "STRIPE82-0002"]

/-! ### C10: result path is independent of the release -/

/-- C10: the per-tile result path is `workdir/results/<tile>_mar-gaiaDR3_diff.csv`
and does not involve the configured release identifier, so the
skip-if-exists decision is unchanged under a release change, and a result
written during a run under one release suppresses all recomputation for
that tile in a later run under any other release. -/
theorem c10_release_independent_skip :
    (∀ (cfg : Config) (fs : List String) (tile d : String),
      skipDecision { cfg with gaia_dr := d } fs tile = skipDecision cfg fs tile)
    ∧ resultPath "wd" "T" = "wd/results/T_mar-gaiaDR3_diff.csv"
    ∧ (∀ (cfg cfg2 : Config) (fs : List String) (tile : String),
        cfg2.workdir = cfg.workdir →
        Event.writeFile (resultPath cfg.workdir tile) ∈ processTileEvents cfg fs tile →
        (processTileEvents cfg2 (fs ++ writtenPaths (processTileEvents cfg fs tile))
            tile).any isRecompute = false) := by
  refine ⟨fun _ _ _ _ => rfl, by with_unfolding_all rfl, ?_⟩
  intro cfg cfg2 fs tile hw hmem
  have hwp : resultPath cfg.workdir tile ∈ writtenPaths (processTileEvents cfg fs tile) := by
    unfold writtenPaths
    exact List.mem_filterMap.mpr ⟨Event.writeFile (resultPath cfg.workdir tile), hmem, rfl⟩
  have hin : resultPath cfg2.workdir tile
      ∈ fs ++ writtenPaths (processTileEvents cfg fs tile) := by
    rw [hw]
    exact List.mem_append_right _ hwp
  exact skip_no_recompute cfg2 _ tile hin

/-- Configuration used to witness C10 under release 345. -/
def cfgC10b : Config := { cfgNoOpt with gaia_dr := "345" }

/-- File system for the C10 witness: the Gaia cache for tile T exists, so
the release-355 run really does reach the result write. -/
def fsC10 : List String := ["wd/gaia_355/T.csv"]

/-- Witness for C10: starting from a state with the Gaia cache present, the
release-355 run writes the result for tile T, and the subsequent run under
release 345 skips the tile entirely. -/
theorem c10_release_independent_skip_witness :
    cfgC10b.workdir = cfgNoOpt.workdir
    ∧ Event.writeFile (resultPath cfgNoOpt.workdir "T")
        ∈ processTileEvents cfgNoOpt fsC10 "T"
    ∧ (processTileEvents cfgC10b
        (fsC10 ++ writtenPaths (processTileEvents cfgNoOpt fsC10 "T")) "T").any
        isRecompute = false :=
  ⟨rfl, by with_unfolding_all decide,
   c10_release_independent_skip.2.2 cfgNoOpt cfgC10b fsC10 "T" rfl
     (by with_unfolding_all decide)⟩

end SplusGaiaAst
